import Mathlib

/-
Formal verification of the Img_converter image transformation service.

The definitions below are a shallow embedding of the Python source:
  - `backend/services/image_service.py` (quality search, crop, resize,
    in-memory pipeline, alpha flattening), and
  - `backend/api/routers/images.py` (format sniffer and validator).

Pixel encoding/decoding is an external codec collaborator; it is modelled
by an abstract size-probe function `enc : Nat → Nat` (the encoded byte size
at a given quality) where the code only observes sizes, and by abstract
dimension transformers where the code only observes dimensions.
Python `int` arithmetic is modelled on `Int`/`Nat`; the few float
computations (resize ratios) are modelled exactly on `ℚ`, with Python's
`int(·)` truncation rendered as `Int.floor` (all quantities involved are
nonnegative, where truncation and floor agree).
-/

set_option autoImplicit false

namespace ImgConverter

/-! ## Quality search (`ImageService._find_optimal_quality`) -/

/-- `ImageService.QUALITY_FORMATS`: the formats that accept a quality
parameter when saving. -/
def QUALITY_FORMATS : List String := ["jpg", "jpeg", "webp", "avif", "heif", "heic"]

/-- The `while min_quality <= max_quality` loop of `_find_optimal_quality`
(image_service.py lines 507-521).  `enc q` is the byte size produced by the
codec collaborator when encoding the buffer at quality `q`
(`_get_image_size_at_quality`).  The loop is written with a fuel argument;
the range `[minQ, maxQ]` strictly shrinks at every iteration, so any fuel
at least `maxQ + 1 - minQ` (the top-level call passes 96 for the range
`[1, 95]`) makes the fuel guard unreachable. -/
def searchLoop (enc : Nat → Nat) (target tol : Nat) :
    Nat → Nat → Nat → Nat → Nat
  | 0, _, _, best => best
  | fuel + 1, minQ, maxQ, best =>
    if minQ ≤ maxQ then
      let mid := (minQ + maxQ) / 2
      let cur := enc mid
      if Nat.dist cur target ≤ tol then mid
      else if target < cur then searchLoop enc target tol fuel minQ (mid - 1) best
      else searchLoop enc target tol fuel (mid + 1) maxQ mid
    else best

/-- `ImageService._find_optimal_quality` (image_service.py lines 474-522):
formats without quality support return 95 immediately; otherwise quality 95
is probed first and returned when its size is at most the target; otherwise
the binary search runs over `[1, 95]` with best-so-far initialised to 85. -/
def find_optimal_quality (enc : Nat → Nat) (output_format : String)
    (target_size_bytes tolerance : Nat) : Nat :=
  if output_format ∉ QUALITY_FORMATS then 95
  else if enc 95 ≤ target_size_bytes then 95
  else searchLoop enc target_size_bytes tolerance 96 1 95 85

/-- Result record of `ImageService.compress_image`, restricted to the fields
the claims observe. -/
structure CompressResult where
  success : Bool
  final_quality : Nat
  output_size : Nat
  deriving Repr, DecidableEq

/-- `ImageService.compress_image` (image_service.py lines 367-472), at the
size-observation level: when a target size in KB is given, the final quality
comes from `_find_optimal_quality` with `target_size_kb * 1024` bytes and the
default tolerance of 1024; otherwise the caller-supplied quality is used.
The final save uses the same quality/optimize parameters as the probes for a
quality-capable format, so its size is `enc final_quality`.  The function
returns a success result in either case (an unreachable target is not an
error). -/
def compress_image (enc : Nat → Nat) (output_format : String)
    (target_size_kb : Option Nat) (quality : Nat) : CompressResult :=
  let final_quality :=
    match target_size_kb with
    | some kb => find_optimal_quality enc output_format (kb * 1024) 1024
    | none => quality
  { success := true, final_quality := final_quality, output_size := enc final_quality }

/-- The quality-search loop exactly as the claim sentence words it: the
best-so-far candidate starts unrecorded (`none`) and "defaults to 85 when no
candidate was ever recorded"; a probe within 1024 bytes of the target
returns the midpoint; a too-large probe narrows the upper bound to
`mid - 1`; a too-small probe records the midpoint and narrows the lower
bound to `mid + 1`. -/
def claimSearchLoop (enc : Nat → Nat) (target : Nat) :
    Nat → Nat → Nat → Option Nat → Nat
  | 0, _, _, best => best.getD 85
  | fuel + 1, lo, hi, best =>
    if lo ≤ hi then
      let mid := (lo + hi) / 2
      let size := enc mid
      if Nat.dist size target ≤ 1024 then mid
      else if target < size then claimSearchLoop enc target fuel lo (mid - 1) best
      else claimSearchLoop enc target fuel (mid + 1) hi (some mid)
    else best.getD 85

/-- The quality search as the claim states it for a quality-capable format:
probe quality 95 first and return it when its size is at or below the
target, otherwise binary-search `[1, 95]`. -/
def qualitySearchClaim (enc : Nat → Nat) (target : Nat) : Nat :=
  if enc 95 ≤ target then 95 else claimSearchLoop enc target 96 1 95 none

/-- The source loop with its best-so-far variable initialised to
`b.getD 85` computes the claim-worded loop whose best-so-far is the optional
`b`. -/
theorem searchLoop_eq_claimSearchLoop (enc : Nat → Nat) (target : Nat) :
    ∀ (fuel lo hi : Nat) (b : Option Nat),
      searchLoop enc target 1024 fuel lo hi (b.getD 85) =
        claimSearchLoop enc target fuel lo hi b := by
  intro fuel
  induction fuel with
  | zero => intro lo hi b; rfl
  | succ n ih =>
    intro lo hi b
    simp only [searchLoop, claimSearchLoop]
    by_cases hlh : lo ≤ hi
    · simp only [hlh, if_true]
      by_cases hdist : Nat.dist (enc ((lo + hi) / 2)) target ≤ 1024
      · simp [hdist]
      · simp only [hdist, if_false]
        by_cases hlarge : target < enc ((lo + hi) / 2)
        · simp only [hlarge, if_true]
          exact ih lo ((lo + hi) / 2 - 1) b
        · simp only [hlarge, if_false]
          exact ih ((lo + hi) / 2 + 1) hi (some ((lo + hi) / 2))
    · simp [hlh]

/-- If every quality in the current range probes strictly above
`target + tol`, the loop never hits the tolerance band, never records a
candidate, and falls out returning its best-so-far argument unchanged. -/
theorem searchLoop_all_too_large (enc : Nat → Nat) (target tol : Nat) :
    ∀ (fuel lo hi best : Nat),
      (∀ q, lo ≤ q → q ≤ hi → target + tol < enc q) →
      searchLoop enc target tol fuel lo hi best = best := by
  intro fuel
  induction fuel with
  | zero => intro lo hi best _; rfl
  | succ n ih =>
    intro lo hi best h
    simp only [searchLoop]
    by_cases hlh : lo ≤ hi
    · have hmlo : lo ≤ (lo + hi) / 2 := by omega
      have hmhi : (lo + hi) / 2 ≤ hi := by omega
      have hbig := h ((lo + hi) / 2) hmlo hmhi
      have hdist : ¬ Nat.dist (enc ((lo + hi) / 2)) target ≤ tol := by
        simp only [Nat.dist]
        omega
      have hlarge : target < enc ((lo + hi) / 2) := by omega
      simp only [hlh, if_true, hdist, if_false, hlarge]
      exact ih lo ((lo + hi) / 2 - 1) best
        (fun q h1 h2 => h q h1 (by omega))
    · simp [hlh]

/-- C1: for every size-probe function and target byte size, and every
quality-capable output format, `_find_optimal_quality` computes exactly the
procedure the claim describes: probe quality 95 and return it immediately
when its size is at or below the target, otherwise binary-search `[1, 95]`,
returning a midpoint whose probe lands within 1024 bytes of the target,
shrinking the upper bound to `mid - 1` on a too-large probe, recording the
midpoint and raising the lower bound to `mid + 1` on a too-small probe, and
on exhaustion returning the best-so-far candidate, 85 when none was ever
recorded. -/
theorem find_optimal_quality_matches_claim (enc : Nat → Nat)
    (output_format : String) (target : Nat)
    (hfmt : output_format ∈ QUALITY_FORMATS) :
    find_optimal_quality enc output_format target 1024 =
      qualitySearchClaim enc target := by
  unfold find_optimal_quality qualitySearchClaim
  rw [if_neg (by simp [hfmt])]
  by_cases h95 : enc 95 ≤ target
  · simp [h95]
  · simp only [h95, if_false]
    exact searchLoop_eq_claimSearchLoop enc target 96 1 95 none

/-- Witness for C1 at a concrete probe function, format and target. -/
theorem find_optimal_quality_matches_claim_witness :
    "jpg" ∈ QUALITY_FORMATS ∧
      find_optimal_quality (fun q => q * 1000) "jpg" 50000 1024 =
        qualitySearchClaim (fun q => q * 1000) 50000 :=
  ⟨by decide, find_optimal_quality_matches_claim (fun q => q * 1000) "jpg" 50000 (by decide)⟩

/-- C3 counterexample: a compression request whose probes all exceed the
20 KB target (every quality encodes to 100000 bytes) completes successfully,
but its reported final quality is the never-recorded best-so-far default 85,
not 1 as the claim states. -/
theorem compress_unreachable_target_counterexample :
    100000 > 20 * 1024 ∧
      (compress_image (fun _ => 100000) "jpg" (some 20) 85).success = true ∧
      (compress_image (fun _ => 100000) "jpg" (some 20) 85).final_quality = 85 ∧
      (compress_image (fun _ => 100000) "jpg" (some 20) 85).final_quality ≠ 1 := by
  refine ⟨by decide, rfl, rfl, by decide⟩

/-- C3 amended: for every compression request to a quality-capable format
whose target byte size is exceeded by more than the tolerance at every
quality in `[1, 95]`, the operation completes successfully, the reported
final quality is the best-so-far default 85 (not 1), and the
caller-observable output size is above the target. -/
theorem compress_unreachable_target_returns_default (enc : Nat → Nat)
    (output_format : String) (kb : Nat)
    (hfmt : output_format ∈ QUALITY_FORMATS)
    (h : ∀ q, 1 ≤ q → q ≤ 95 → kb * 1024 + 1024 < enc q) :
    (compress_image enc output_format (some kb) 85).success = true ∧
      (compress_image enc output_format (some kb) 85).final_quality = 85 ∧
      kb * 1024 < (compress_image enc output_format (some kb) 85).output_size := by
  have hq : find_optimal_quality enc output_format (kb * 1024) 1024 = 85 := by
    unfold find_optimal_quality
    rw [if_neg (by simp [hfmt])]
    rw [if_neg (by have := h 95 (by omega) (by omega); omega)]
    exact searchLoop_all_too_large enc (kb * 1024) 1024 96 1 95 85 h
  refine ⟨rfl, ?_, ?_⟩
  · simp [compress_image, hq]
  · have h85 := h 85 (by omega) (by omega)
    simp only [compress_image, hq]
    omega

/-- Witness for the amended C3 at a concrete probe function, format and
target. -/
theorem compress_unreachable_target_returns_default_witness :
    "webp" ∈ QUALITY_FORMATS ∧
      (∀ q, 1 ≤ q → q ≤ 95 → 20 * 1024 + 1024 < (fun (_ : Nat) => 100000) q) ∧
      ((compress_image (fun _ => 100000) "webp" (some 20) 85).success = true ∧
        (compress_image (fun _ => 100000) "webp" (some 20) 85).final_quality = 85 ∧
        20 * 1024 < (compress_image (fun _ => 100000) "webp" (some 20) 85).output_size) :=
  ⟨by decide, fun _ _ _ => by norm_num,
    compress_unreachable_target_returns_default (fun _ => 100000) "webp" 20
      (by decide) (fun _ _ _ => by norm_num)⟩

/-! ## Crop boundary policy (`ImageService.crop_image`) -/

/-- The fields of the `crop_image` result record that the claims observe:
output dimensions, the `adjusted` flag and the number of adjustment
messages. -/
structure CropOutcome where
  outW : Int
  outH : Int
  adjusted : Bool
  adjustmentCount : Nat
  deriving Repr, DecidableEq

/-- Boolean error test for `Except` results. -/
def isError {ε α : Type} : Except ε α → Bool
  | Except.error _ => true
  | Except.ok _ => false

/-- `ImageService.crop_image` (image_service.py lines 707-852), restricted
to its validation and crop-box arithmetic on the image dimensions
`(imgW, imgH)`: negative origins and non-positive sizes raise, an origin at
or past an edge raises, and an overshooting box is clamped to the image with
the `adjusted` flag and one message per clamped axis. -/
def crop_image (imgW imgH x y width height : Int) : Except String CropOutcome :=
  if x < 0 ∨ y < 0 then Except.error "negative crop origin"
  else if width ≤ 0 ∨ height ≤ 0 then Except.error "non-positive crop size"
  else if imgW ≤ x then Except.error "crop origin x beyond image width"
  else if imgH ≤ y then Except.error "crop origin y beyond image height"
  else
    let adjW : Bool := decide (imgW < x + width)
    let adjH : Bool := decide (imgH < y + height)
    let x2 : Int := if adjW then imgW else x + width
    let y2 : Int := if adjH then imgH else y + height
    Except.ok
      { outW := x2 - x, outH := y2 - y, adjusted := adjW || adjH,
        adjustmentCount := (if adjW then 1 else 0) + (if adjH then 1 else 0) }

/-- C2: for every crop request with a valid rectangle, an origin inside the
image always succeeds with dimensions `(min (x+w) W - x, min (y+h) H - y)`
and the `adjusted` flag set iff at least one axis was clamped (one message
per clamped axis), while an origin at or past an edge is rejected. -/
theorem crop_image_boundary_policy (imgW imgH x y w h : Int)
    (hx : 0 ≤ x) (hy : 0 ≤ y) (hw : 0 < w) (hh : 0 < h) :
    (x < imgW → y < imgH →
      crop_image imgW imgH x y w h = Except.ok
        { outW := min (x + w) imgW - x
          outH := min (y + h) imgH - y
          adjusted := decide (imgW < x + w) || decide (imgH < y + h)
          adjustmentCount :=
            (if imgW < x + w then 1 else 0) + (if imgH < y + h then 1 else 0) }) ∧
    ((imgW ≤ x ∨ imgH ≤ y) → isError (crop_image imgW imgH x y w h) = true) := by
  constructor
  · intro hxW hyH
    unfold crop_image
    rw [if_neg (by omega), if_neg (by omega), if_neg (by omega), if_neg (by omega)]
    by_cases hW2 : imgW < x + w <;> by_cases hH2 : imgH < y + h <;>
      simp [hW2, hH2] <;> omega
  · intro hout
    unfold crop_image
    rw [if_neg (by omega), if_neg (by omega)]
    rcases hout with hW | hH
    · rw [if_pos hW]; rfl
    · by_cases hW : imgW ≤ x
      · rw [if_pos hW]; rfl
      · rw [if_neg hW, if_pos hH]; rfl

/-- Witness for C2 at the spec scenario: a 100×100 image with crop
`(10, 10, 200, 200)` yields 90×90, adjusted, with two messages. -/
theorem crop_image_boundary_policy_witness :
    ((0 : Int) ≤ 10 ∧ (0 : Int) ≤ 10 ∧ (0 : Int) < 200 ∧ (0 : Int) < 200) ∧
      (((10 : Int) < 100 → (10 : Int) < 100 →
        crop_image 100 100 10 10 200 200 = Except.ok
          { outW := min (10 + 200) 100 - 10
            outH := min (10 + 200) 100 - 10
            adjusted := decide ((100 : Int) < 10 + 200) || decide ((100 : Int) < 10 + 200)
            adjustmentCount :=
              (if (100 : Int) < 10 + 200 then 1 else 0) +
                (if (100 : Int) < 10 + 200 then 1 else 0) }) ∧
        (((100 : Int) ≤ 10 ∨ (100 : Int) ≤ 10) →
          isError (crop_image 100 100 10 10 200 200) = true)) :=
  ⟨by norm_num,
    crop_image_boundary_policy 100 100 10 10 200 200
      (by norm_num) (by norm_num) (by norm_num) (by norm_num)⟩

/-! ## The in-memory pipeline (`ImageService.process_image_bytes`) -/

/-- One entry of the pipeline's human-readable operation log
(`operations_applied`), rendered as structured data instead of the source's
formatted strings. -/
inductive LogEntry where
  | rotate (angle : Int)
  | flipOp (horizontal : Bool)
  | cropOp (x y w h : Int)
  | resizeScale (s : ℚ)
  | resizeDims (w h : Int)
  | formatConversion (fmt : String)
  deriving Repr, DecidableEq

/-- The optional transform parameters of `process_image_bytes`
(image_service.py lines 1159-1182). -/
structure PipeParams where
  rotate_angle : Option Int
  rotate_expand : Bool
  flip_direction : Option String
  crop_x : Option Int
  crop_y : Option Int
  crop_width : Option Int
  crop_height : Option Int
  resize_width : Option Int
  resize_height : Option Int
  resize_scale : Option ℚ
  resize_keep_ratio : Bool

/-- The parameter bundle with every optional operation absent and the
source's defaults for the flags. -/
def PipeParams.idle : PipeParams :=
  { rotate_angle := none, rotate_expand := true, flip_direction := none,
    crop_x := none, crop_y := none, crop_width := none, crop_height := none,
    resize_width := none, resize_height := none, resize_scale := none,
    resize_keep_ratio := true }

/-- Python truthiness of an optional integer (`None` and `0` are falsy). -/
def truthyInt : Option Int → Bool
  | none => false
  | some v => v ≠ 0

/-- Python truthiness of an optional number modelled on `ℚ`. -/
def truthyRat : Option ℚ → Bool
  | none => false
  | some v => v ≠ 0

/-- Rotation stage of `process_image_bytes` (lines 1242-1271), at the
dimension level.  A right-angle rotation is an axis-aligned transpose
(90/270 swap the dimensions, 180 keeps them); any other angle defers to the
codec's free-rotation kernel `freeRotateDims angle expand dims`, the only
place the expand flag is consulted.  The stage appends one rotate entry. -/
def applyRotate (freeRotateDims : Int → Bool → Int × Int → Int × Int)
    (dims : Int × Int) (p : PipeParams) : (Int × Int) × List LogEntry :=
  match p.rotate_angle with
  | none => (dims, [])
  | some a =>
    let n := a % 360
    let d :=
      if n = 90 then (dims.2, dims.1)
      else if n = 180 then dims
      else if n = 270 then (dims.2, dims.1)
      else if n = 0 then dims
      else freeRotateDims a p.rotate_expand dims
    (d, [LogEntry.rotate a])

/-- Flip stage of `process_image_bytes` (lines 1273-1285): a falsy direction
skips the stage, an unknown direction raises, and flipping never changes the
dimensions. -/
def applyFlip (dims : Int × Int) (p : PipeParams) :
    Except String ((Int × Int) × List LogEntry) :=
  match p.flip_direction with
  | none => Except.ok (dims, [])
  | some dir =>
    if dir = "" then Except.ok (dims, [])
    else
      let d := dir.toLower
      if d = "horizontal" then Except.ok (dims, [LogEntry.flipOp true])
      else if d = "vertical" then Except.ok (dims, [LogEntry.flipOp false])
      else Except.error "invalid flip direction"

/-- Crop stage of `process_image_bytes` (lines 1287-1304): runs only when
all four crop fields are present; an origin at or past an edge raises, and
the box is silently clamped to the current dimensions otherwise. -/
def applyCrop (dims : Int × Int) (p : PipeParams) :
    Except String ((Int × Int) × List LogEntry) :=
  match p.crop_x, p.crop_y, p.crop_width, p.crop_height with
  | some cx, some cy, some cw, some ch =>
    if dims.1 ≤ cx then Except.error "crop x beyond image width"
    else if dims.2 ≤ cy then Except.error "crop y beyond image height"
    else
      let x2 := min (cx + cw) dims.1
      let y2 := min (cy + ch) dims.2
      Except.ok ((x2 - cx, y2 - cy), [LogEntry.cropOp cx cy (x2 - cx) (y2 - cy)])
  | _, _, _, _ => Except.ok (dims, [])

/-- The resize-target arithmetic of `process_image_bytes`
(lines 1310-1331): a present scale (even a falsy one) takes the percentage
branch; both axes with keep-ratio use the smaller implied ratio; a single
axis derives the other by the same ratio; both results are floored and then
clamped to a minimum of 1.  Python's float ratios are modelled exactly on
`ℚ` and `int(·)` as `Int.floor` (all values are nonnegative on every path
the service reaches, where truncation and floor agree). -/
def computeResizeTarget (cw ch : Int) (resize_width resize_height : Option Int)
    (resize_scale : Option ℚ) (keep : Bool) : Int × Int :=
  let t : Int × Int :=
    match resize_scale with
    | some s => (⌊(cw : ℚ) * s / 100⌋, ⌊(ch : ℚ) * s / 100⌋)
    | none =>
      if truthyInt resize_width && truthyInt resize_height then
        if keep then
          let ratio := min ((resize_width.getD 0 : ℚ) / (cw : ℚ))
            ((resize_height.getD 0 : ℚ) / (ch : ℚ))
          (⌊(cw : ℚ) * ratio⌋, ⌊(ch : ℚ) * ratio⌋)
        else (resize_width.getD 0, resize_height.getD 0)
      else if truthyInt resize_width then
        (resize_width.getD 0, ⌊(ch : ℚ) * ((resize_width.getD 0 : ℚ) / (cw : ℚ))⌋)
      else
        (⌊(cw : ℚ) * ((resize_height.getD 0 : ℚ) / (ch : ℚ))⌋, resize_height.getD 0)
  (max 1 t.1, max 1 t.2)

/-- Resize stage of `process_image_bytes` (lines 1306-1338): entered when
any resize parameter is truthy; the log records a percentage entry when the
scale is truthy and a dimensions entry otherwise. -/
def applyResize (dims : Int × Int) (p : PipeParams) :
    (Int × Int) × List LogEntry :=
  if truthyInt p.resize_width || truthyInt p.resize_height || truthyRat p.resize_scale then
    let t := computeResizeTarget dims.1 dims.2 p.resize_width p.resize_height
      p.resize_scale p.resize_keep_ratio
    (t, [match p.resize_scale with
         | some s => if s ≠ 0 then LogEntry.resizeScale s else LogEntry.resizeDims t.1 t.2
         | none => LogEntry.resizeDims t.1 t.2])
  else (dims, [])

/-- `ImageService.process_image_bytes` (image_service.py lines 1159-1364) at
the dimension level, after format resolution: the fixed stage order
rotate → flip → crop → resize, the concatenated operation log with the
synthetic format-conversion entry when no stage ran, and the final
dimensions.  `freeRotateDims` abstracts the codec's free-rotation kernel. -/
def process_image_bytes (freeRotateDims : Int → Bool → Int × Int → Int × Int)
    (W H : Int) (p : PipeParams) (outputFormat : String) :
    Except String ((Int × Int) × List LogEntry) :=
  let r1 := applyRotate freeRotateDims (W, H) p
  match applyFlip r1.1 p with
  | Except.error e => Except.error e
  | Except.ok r2 =>
    match applyCrop r2.1 p with
    | Except.error e => Except.error e
    | Except.ok r3 =>
      let r4 := applyResize r3.1 p
      let ops := r1.2 ++ r2.2 ++ r3.2 ++ r4.2
      Except.ok (r4.1, if ops = [] then [LogEntry.formatConversion outputFormat] else ops)

/-- The parameter validation of the file-based `ImageService.resize_image`
(image_service.py lines 603-617).  These checks run before `_open_image`,
i.e. before any decode. -/
def resize_image_validate (width height : Option Int) (scale : Option ℚ) :
    Except String Unit :=
  if scale.isSome ∧ (width.isSome ∨ height.isSome) then
    Except.error "scale cannot be combined with width or height"
  else if (match scale with | some s => decide (s ≤ 0) | none => false) then
    Except.error "scale must be positive"
  else if (match width with | some w => decide (w ≤ 0) | none => false) then
    Except.error "width must be positive"
  else if (match height with | some h => decide (h ≤ 0) | none => false) then
    Except.error "height must be positive"
  else if width = none ∧ height = none ∧ scale = none then
    Except.error "one of width, height or scale is required"
  else Except.ok ()

/-- C8: for every rotation request whose angle normalises modulo 360 to
exactly 90 or 270, the pipeline is an axis-aligned transpose: the output
dimensions are the input dimensions swapped, the free-rotation kernel and
the expand flag are never consulted (the result is the same for every
kernel and for both flag values), and the operation log is exactly one
rotate entry. -/
theorem rotate_right_angle_transposes
    (freeRotateDims : Int → Bool → Int × Int → Int × Int) (W H a : Int)
    (expand : Bool) (fmt : String) (h : a % 360 = 90 ∨ a % 360 = 270) :
    process_image_bytes freeRotateDims W H
        { PipeParams.idle with rotate_angle := some a, rotate_expand := expand } fmt =
      Except.ok ((H, W), [LogEntry.rotate a]) := by
  rcases h with h | h <;>
    simp [process_image_bytes, applyRotate, applyFlip, applyCrop, applyResize,
      PipeParams.idle, truthyInt, truthyRat, h]

/-- Witness for C8 at the spec scenario: a 200×150 input with `rotate=90`
yields 150×200 and a single rotate log entry, for an arbitrary free-rotation
kernel. -/
theorem rotate_right_angle_transposes_witness :
    ((90 : Int) % 360 = 90 ∨ (90 : Int) % 360 = 270) ∧
      process_image_bytes (fun _ _ d => d) 200 150
          { PipeParams.idle with rotate_angle := some 90, rotate_expand := true } "png" =
        Except.ok ((150, 200), [LogEntry.rotate 90]) :=
  ⟨Or.inl (by decide),
    rotate_right_angle_transposes (fun _ _ d => d) 200 150 90 true "png"
      (Or.inl (by decide))⟩

/-- C4 counterexample: a pipeline request with both `resize_scale = 50` and
`resize_width = 100` set, on an 800×600 image, is not rejected: the request
succeeds, the scale is applied (output 400×300) and the width is ignored. -/
theorem resize_scale_with_width_counterexample :
    process_image_bytes (fun _ _ d => d) 800 600
        { PipeParams.idle with resize_scale := some 50, resize_width := some 100 } "png" =
      Except.ok ((400, 300), [LogEntry.resizeScale 50]) := by
  simp only [process_image_bytes, applyRotate, applyFlip, applyCrop, applyResize,
    computeResizeTarget, PipeParams.idle, truthyInt, truthyRat]
  norm_num [Int.floor_eq_iff]

/-- C4 amended: the in-memory pipeline does not reject a request that sets a
resize scale together with an explicit width or height — the scale takes
precedence and the explicit dimensions are ignored entirely; only the
file-based `resize_image` operation rejects the combination, in its
parameter validation that runs before any decode. -/
theorem resize_scale_precedence_and_file_validation :
    (∀ (freeRotateDims : Int → Bool → Int × Int → Int × Int) (W H : Int) (s : ℚ)
        (w hgt : Option Int) (keep : Bool) (fmt : String), s ≠ 0 →
        process_image_bytes freeRotateDims W H
            { PipeParams.idle with
              resize_scale := some s
              resize_width := w
              resize_height := hgt
              resize_keep_ratio := keep } fmt =
          process_image_bytes freeRotateDims W H
            { PipeParams.idle with resize_scale := some s } fmt) ∧
    (∀ (w hgt : Option Int) (s : ℚ), w.isSome ∨ hgt.isSome →
        isError (resize_image_validate w hgt (some s)) = true) := by
  constructor
  · intro freeRotateDims W H s w hgt keep fmt hs
    simp [process_image_bytes, applyRotate, applyFlip, applyCrop, applyResize,
      computeResizeTarget, PipeParams.idle, truthyInt, truthyRat, hs]
  · intro w hgt s hsome
    rw [resize_image_validate.eq_def, if_pos ⟨rfl, hsome⟩]
    rfl

/-- Witness for the amended C4: scale 50 with width 100 set behaves as scale
50 alone on an 800×600 image, and the file-based validation rejects the
combination. -/
theorem resize_scale_precedence_and_file_validation_witness :
    (process_image_bytes (fun _ _ d => d) 800 600
        { PipeParams.idle with resize_scale := some 50, resize_width := some 100 } "png" =
      process_image_bytes (fun _ _ d => d) 800 600
        { PipeParams.idle with resize_scale := some 50 } "png") ∧
      isError (resize_image_validate (some 100) none (some 50)) = true :=
  ⟨resize_scale_precedence_and_file_validation.1 (fun _ _ d => d) 800 600 50
      (some 100) none true "png" (by norm_num),
    resize_scale_precedence_and_file_validation.2 (some 100) none 50 (Or.inl rfl)⟩

/-- C5 counterexample: resizing a 3×100 image to width 2 produces height 66
(the floored ratio product), not `round(100 * 2 / 3) = 67` as the claim
states. -/
theorem resize_width_only_round_counterexample :
    computeResizeTarget 3 100 (some 2) none none true = (2, 66) ∧
      round ((100 : ℚ) * 2 / 3) = 67 := by
  constructor
  · simp only [computeResizeTarget, truthyInt]
    norm_num [Prod.ext_iff, Int.floor_eq_iff]
  · norm_num [round_eq, Int.floor_eq_iff]

/-- C5 amended: for every resize request that specifies only a target width
(no height, no scale), the result width equals the requested width exactly
and the result height is the floor (Python `int` truncation) of
`original_height * width / original_width`, clamped to a minimum of 1 —
floored, not rounded to nearest. -/
theorem resize_width_only_floors (cw ch w : Int) (keep : Bool)
    (_hcw : 0 < cw) (hw : 0 < w) :
    computeResizeTarget cw ch (some w) none none keep =
      (w, max 1 ⌊(ch : ℚ) * ((w : ℚ) / (cw : ℚ))⌋) := by
  have hwz : (w ≠ 0) := by omega
  simp only [computeResizeTarget, truthyInt, Option.getD_some, decide_not]
  simp [hwz, Prod.ext_iff]
  omega

/-- Witness for the amended C5 at a 3×100 image resized to width 2. -/
theorem resize_width_only_floors_witness :
    ((0 : Int) < 3 ∧ (0 : Int) < 2) ∧
      computeResizeTarget 3 100 (some 2) none none true =
        (2, max 1 ⌊(100 : ℚ) * ((2 : ℚ) / (3 : ℚ))⌋) :=
  ⟨by norm_num, resize_width_only_floors 3 100 2 true (by norm_num) (by norm_num)⟩

/-! ## Format sniffer and validator (`backend/api/routers/images.py`) -/

/-- Python `bytes.lstrip` default whitespace set (ASCII space, tab, LF, VT,
FF, CR). -/
def isSpaceByte (b : Nat) : Bool :=
  b = 32 || b = 9 || b = 10 || b = 11 || b = 12 || b = 13

/-- `data.lstrip()` on bytes. -/
def lstripBytes (data : List Nat) : List Nat := data.dropWhile isSpaceByte

/-- `bytes.lower` on a single byte: ASCII upper-case letters map to
lower-case, everything else is unchanged. -/
def lowerByte (b : Nat) : Nat := if 65 ≤ b ∧ b ≤ 90 then b + 32 else b

/-- `data.lower()` on bytes. -/
def lowerBytes (data : List Nat) : List Nat := data.map lowerByte

/-- `SVG_SIGNATURES` (images.py line 46): `<?xml`, `<svg`,
`<!DOCTYPE svg`. -/
def SVG_SIGNATURES : List (List Nat) :=
  [[60, 63, 120, 109, 108],
   [60, 115, 118, 103],
   [60, 33, 68, 79, 67, 84, 89, 80, 69, 32, 115, 118, 103]]

/-- The SVG textual-signature test of `detect_format_from_magic_bytes`
(images.py lines 93-96): `data.lstrip()[:len(sig)].lower().startswith(sig.lower())`,
which for a slice of exactly `len(sig)` bytes is prefix equality on the
lower-cased, left-stripped data. -/
def svgSignatureMatch (data : List Nat) : Bool :=
  SVG_SIGNATURES.any fun sig =>
    (lowerBytes sig).isPrefixOf (lowerBytes (lstripBytes data))

/-- `b'RIFF'`. -/
def RIFF_MAGIC : List Nat := [82, 73, 70, 70]

/-- `b'WEBP'`. -/
def WEBP_TAG : List Nat := [87, 69, 66, 80]

/-- `MAGIC_BYTES` (images.py lines 31-43) in its Python insertion order:
PNG, JPEG SOI, GIF87a, GIF89a, BMP, RIFF→webp, little- and big-endian TIFF,
ICO, CUR, QOI. -/
def MAGIC_BYTES : List (List Nat × String) :=
  [([137, 80, 78, 71, 13, 10, 26, 10], "png"),
   ([255, 216, 255], "jpg"),
   ([71, 73, 70, 56, 55, 97], "gif"),
   ([71, 73, 70, 56, 57, 97], "gif"),
   ([66, 77], "bmp"),
   (RIFF_MAGIC, "webp"),
   ([73, 73, 42, 0], "tiff"),
   ([77, 77, 0, 42], "tiff"),
   ([0, 0, 1, 0], "ico"),
   ([0, 0, 2, 0], "ico"),
   ([113, 111, 105, 102], "qoi")]

/-- The `for magic, fmt in MAGIC_BYTES.items()` loop of
`detect_format_from_magic_bytes` (images.py lines 99-106): the RIFF entry
checks bytes 8-12 for `WEBP` only when at least 12 bytes are available
(`continue` falls through to the remaining checks on a non-WEBP tag), and —
as in the source — a RIFF prefix shorter than 12 bytes skips the inner
check and returns the table entry `webp` directly. -/
def matchMagicBytes (data : List Nat) : List (List Nat × String) → Option String
  | [] => none
  | (magic, fmt) :: rest =>
    if magic.isPrefixOf data then
      if magic = RIFF_MAGIC then
        if 12 ≤ data.length then
          if (data.drop 8).take 4 = WEBP_TAG then some "webp"
          else matchMagicBytes data rest
        else some fmt
      else some fmt
    else matchMagicBytes data rest

/-- `b'ftyp'`. -/
def FTYP_TAG : List Nat := [102, 116, 121, 112]

/-- The JPEG2000 signature box
`b'\x00\x00\x00\x0cjP  \r\n\x87\n'` (images.py line 117). -/
def JP2_SIGNATURE : List Nat := [0, 0, 0, 12, 106, 80, 32, 32, 13, 10, 135, 10]

/-- The JPEG2000 fallback check of `detect_format_from_magic_bytes`
(images.py lines 117-120). -/
def jp2Check (data : List Nat) : Option String :=
  if JP2_SIGNATURE.isPrefixOf data then some "jp2" else none

/-- `detect_format_from_magic_bytes` (images.py lines 83-120): SVG textual
signatures first, then the magic-byte table with the RIFF/WEBP special
case, then the ISO-BMFF `ftyp` brand check ({avif, avis} → avif,
{heic, heix, hevc, mif1} → heic), then the JPEG2000 signature, and `none`
otherwise. -/
def detect_format_from_magic_bytes (data : List Nat) : Option String :=
  if svgSignatureMatch data then some "svg"
  else
    match matchMagicBytes data MAGIC_BYTES with
    | some fmt => some fmt
    | none =>
      if 12 ≤ data.length ∧ (data.drop 4).take 4 = FTYP_TAG then
        let brand := (data.drop 8).take 4
        if brand = [97, 118, 105, 102] ∨ brand = [97, 118, 105, 115] then some "avif"
        else if brand = [104, 101, 105, 99] ∨ brand = [104, 101, 105, 120] ∨
            brand = [104, 101, 118, 99] ∨ brand = [109, 105, 102, 49] then some "heic"
        else jp2Check data
      else jp2Check data

/-- `ALLOWED_EXTENSIONS` (images.py lines 49-53). -/
def ALLOWED_EXTENSIONS : List String :=
  ["png", "jpg", "jpeg", "gif", "bmp", "webp", "tiff", "tif", "avif",
   "heic", "heif", "ico", "jp2", "j2k", "tga", "qoi", "svg"]

/-- `validate_image_file` (images.py lines 123-172), taking the declared
extension already extracted from the filename (lower-case, without the dot,
`""` when the filename has none).  An extension outside the allow-list is
rejected with HTTP 415; when sniffing fails, a `tga` extension (and then
any allowed extension) is trusted, otherwise the request is rejected; when
sniffing succeeds the sniffed tag is returned — the source's
extension/sniff mismatch branch (lines 163-170) ends in `pass` and has no
effect. -/
def validate_image_file (data : List Nat) (ext : String) : Except Nat String :=
  if ext ≠ "" ∧ ext ∉ ALLOWED_EXTENSIONS then Except.error 415
  else
    match detect_format_from_magic_bytes data with
    | none =>
      if ext = "tga" then Except.ok ext
      else if ext ∈ ALLOWED_EXTENSIONS then Except.ok ext
      else Except.error 415
    | some detected => Except.ok detected

/-- A successful `List.isPrefixOf` test exhibits the data as the tested
prefix followed by a tail. -/
theorem exists_append_of_isPrefixOf {pre data : List Nat}
    (h : pre.isPrefixOf data = true) : ∃ t, data = pre ++ t := by
  induction pre generalizing data with
  | nil => exact ⟨data, rfl⟩
  | cons a as ih =>
    cases data with
    | nil => simp at h
    | cons b bs =>
      rw [List.isPrefixOf_cons₂] at h
      simp only [Bool.and_eq_true, beq_iff_eq] at h
      obtain ⟨t, ht⟩ := ih h.2
      exact ⟨t, by simp [h.1, ht]⟩

/-- C7 counterexample: the four-byte input `b'RIFF'` is shorter than 12
bytes, yet the sniffer classifies it as webp — the RIFF rule's length guard
skips the `WEBP` tag check instead of refusing to match. -/
theorem riff_short_input_counterexample :
    detect_format_from_magic_bytes [82, 73, 70, 70] = some "webp" ∧
      ([82, 73, 70, 70] : List Nat).length < 12 :=
  ⟨rfl, by decide⟩

/-- C7 amended: for every RIFF-prefixed byte string of at least 12 bytes,
the sniffer classifies it as webp iff bytes 8-12 equal `WEBP`; a
RIFF-prefixed input shorter than 12 bytes, however, is classified as webp
without the tag check. -/
theorem riff_webp_rule (data : List Nat) (h : RIFF_MAGIC.isPrefixOf data = true) :
    (12 ≤ data.length →
      (detect_format_from_magic_bytes data = some "webp" ↔
        (data.drop 8).take 4 = WEBP_TAG)) ∧
    (data.length < 12 → detect_format_from_magic_bytes data = some "webp") := by
  obtain ⟨t, rfl⟩ := exists_append_of_isPrefixOf h
  simp only [RIFF_MAGIC, List.cons_append, List.nil_append, List.length_cons]
  have hsvg : svgSignatureMatch (82 :: 73 :: 70 :: 70 :: t) = false := by
    simp [svgSignatureMatch, SVG_SIGNATURES, lstripBytes, lowerBytes, lowerByte,
      isSpaceByte, List.isPrefixOf_cons₂]
  have hjp2 : jp2Check (82 :: 73 :: 70 :: 70 :: t) = none := by
    simp [jp2Check, JP2_SIGNATURE, List.isPrefixOf_cons₂]
  constructor
  · intro hlen
    have h8 : 8 ≤ t.length := by omega
    by_cases htag : List.take 4 (List.drop 4 t) = WEBP_TAG
    · simp [detect_format_from_magic_bytes, hsvg, matchMagicBytes, MAGIC_BYTES,
        RIFF_MAGIC, List.isPrefixOf_cons₂, h8, htag]
    · simp only [detect_format_from_magic_bytes, hsvg, Bool.false_eq_true, if_false,
        matchMagicBytes, MAGIC_BYTES, RIFF_MAGIC, List.isPrefixOf_cons₂]
      simp [h8, htag, hjp2]
      split_ifs <;> simp
  · intro hlen
    have h8 : ¬ 8 ≤ t.length := by omega
    simp [detect_format_from_magic_bytes, hsvg, matchMagicBytes, MAGIC_BYTES,
      RIFF_MAGIC, List.isPrefixOf_cons₂, h8]

/-- Witness for the amended C7 at a 12-byte RIFF container carrying the
`WEBP` tag. -/
theorem riff_webp_rule_witness :
    RIFF_MAGIC.isPrefixOf [82, 73, 70, 70, 0, 0, 0, 0, 87, 69, 66, 80] = true ∧
      ((12 ≤ ([82, 73, 70, 70, 0, 0, 0, 0, 87, 69, 66, 80] : List Nat).length →
        (detect_format_from_magic_bytes [82, 73, 70, 70, 0, 0, 0, 0, 87, 69, 66, 80] =
            some "webp" ↔
          (([82, 73, 70, 70, 0, 0, 0, 0, 87, 69, 66, 80] : List Nat).drop 8).take 4 =
            WEBP_TAG)) ∧
        (([82, 73, 70, 70, 0, 0, 0, 0, 87, 69, 66, 80] : List Nat).length < 12 →
          detect_format_from_magic_bytes [82, 73, 70, 70, 0, 0, 0, 0, 87, 69, 66, 80] =
            some "webp")) :=
  ⟨by decide, riff_webp_rule [82, 73, 70, 70, 0, 0, 0, 0, 87, 69, 66, 80] (by decide)⟩

/-- C6 counterexample: a file whose bytes sniff as PNG but whose declared
extension is `heic` is not rejected, and the resolved format is the sniffed
`png`, not the declared `heic` — the extension is not trusted over the
sniffed tag. -/
theorem heif_extension_not_trusted_counterexample :
    validate_image_file [137, 80, 78, 71, 13, 10, 26, 10] "heic" = Except.ok "png" ∧
      "png" ≠ "heic" :=
  ⟨rfl, by decide⟩

/-- C6 amended: for every upload whose declared extension is heif, heic or
avif and whose bytes sniff to some concrete tag, validation does not reject
the request, but it resolves the format to the sniffed tag, not the
declared extension (the source's mismatch branch is a no-op for every
extension). -/
theorem heif_extension_mismatch_tolerated (data : List Nat) (ext d : String)
    (hext : ext ∈ (["heif", "heic", "avif"] : List String))
    (hdet : detect_format_from_magic_bytes data = some d) :
    validate_image_file data ext = Except.ok d := by
  have hallow : ext ∈ ALLOWED_EXTENSIONS := by
    simp only [List.mem_cons, List.not_mem_nil, or_false] at hext
    rcases hext with h | h | h <;> subst h <;> decide
  unfold validate_image_file
  rw [if_neg (fun hc => hc.2 hallow), hdet]

/-- Witness for the amended C6: PNG bytes uploaded under the `heic`
extension resolve to `png` without rejection. -/
theorem heif_extension_mismatch_tolerated_witness :
    "heic" ∈ (["heif", "heic", "avif"] : List String) ∧
      detect_format_from_magic_bytes [137, 80, 78, 71, 13, 10, 26, 10] = some "png" ∧
      validate_image_file [137, 80, 78, 71, 13, 10, 26, 10] "heic" = Except.ok "png" :=
  ⟨by decide, rfl,
    heif_extension_mismatch_tolerated [137, 80, 78, 71, 13, 10, 26, 10] "heic" "png"
      (by decide) rfl⟩

/-! ## Alpha flattening on save (`ImageService._save_image_to_bytes`) -/

/-- PIL pixel-channel modes the service can encounter. -/
inductive PixMode where
  | RGB
  | RGBA
  | LA
  | L
  | P
  | PA
  | CMYK
  deriving Repr, DecidableEq

/-- An in-memory decoded raster: dimensions, channel mode and a pixel map
giving `(r, g, b, a)` at each coordinate. -/
structure ImgBuffer where
  width : Nat
  height : Nat
  mode : PixMode
  px : Nat → Nat → Nat × Nat × Nat × Nat

/-- `no_alpha_formats` (image_service.py line 1137): the output formats
without alpha support. -/
def no_alpha_formats : List String := ["jpg", "jpeg", "bmp", "jp2", "j2k"]

/-- One channel of the codec collaborator's composite-over-background
(`Image.paste` with the alpha channel as mask): the alpha-weighted average
of the background and source channels.  At the endpoints it is exact:
alpha 0 keeps the background, alpha 255 keeps the source. -/
def blendChannel (bg c a : Nat) : Nat := (bg * (255 - a) + c * a) / 255

/-- The flattening step of `_save_image_to_bytes` (lines 1140-1143): a new
opaque RGB canvas of the same size filled with the background colour, with
the source pasted over it using its alpha channel as the blend mask. -/
def flattenOverColor (img : ImgBuffer) (bg : Nat × Nat × Nat) : ImgBuffer :=
  { width := img.width, height := img.height, mode := PixMode.RGB,
    px := fun i j =>
      let p := img.px i j
      (blendChannel bg.1 p.1 p.2.2.2, blendChannel bg.2.1 p.2.1 p.2.2.2,
        blendChannel bg.2.2 p.2.2.1 p.2.2.2, 255) }

/-- The buffer that `_save_image_to_bytes` (image_service.py lines
1117-1157) hands to the encoder: when the buffer's mode is exactly `RGBA`
and the output format lacks alpha support, it is composited over opaque
white; every other buffer is passed through unchanged.  In
`process_image_bytes` this save step runs after all of
rotate → flip → crop → resize, immediately before the encode. -/
def prepareForSave (img : ImgBuffer) (output_format : String) : ImgBuffer :=
  if img.mode = PixMode.RGBA ∧ output_format ∈ no_alpha_formats then
    flattenOverColor img (255, 255, 255)
  else img

/-- C9: for every RGBA buffer encoded to a format in the no-alpha set, the
buffer handed to the encoder has no alpha channel (mode RGB), keeps the
input's width and height, and every pixel that was fully transparent in the
source is exactly the white flatten background; the flattening is the last
step before encode, after all geometric transforms (the statement
quantifies over the already-transformed buffer `img`). -/
theorem save_flattens_rgba (img : ImgBuffer) (fmt : String)
    (hmode : img.mode = PixMode.RGBA) (hfmt : fmt ∈ no_alpha_formats) :
    (prepareForSave img fmt).mode = PixMode.RGB ∧
      (prepareForSave img fmt).width = img.width ∧
      (prepareForSave img fmt).height = img.height ∧
      (∀ i j, (img.px i j).2.2.2 = 0 →
        (prepareForSave img fmt).px i j = (255, 255, 255, 255)) := by
  rw [prepareForSave, if_pos ⟨hmode, hfmt⟩]
  refine ⟨rfl, rfl, rfl, ?_⟩
  intro i j ha
  simp [flattenOverColor, blendChannel, ha]

/-- Witness for C9: an 80×80 RGBA buffer with a fully transparent pixel
map, saved as jpg. -/
theorem save_flattens_rgba_witness :
    (ImgBuffer.mk 80 80 PixMode.RGBA (fun _ _ => (10, 20, 30, 0))).mode = PixMode.RGBA ∧
      "jpg" ∈ no_alpha_formats ∧
      ((prepareForSave (ImgBuffer.mk 80 80 PixMode.RGBA (fun _ _ => (10, 20, 30, 0)))
          "jpg").mode = PixMode.RGB ∧
        (prepareForSave (ImgBuffer.mk 80 80 PixMode.RGBA (fun _ _ => (10, 20, 30, 0)))
          "jpg").width = 80 ∧
        (prepareForSave (ImgBuffer.mk 80 80 PixMode.RGBA (fun _ _ => (10, 20, 30, 0)))
          "jpg").height = 80 ∧
        (∀ i j, ((ImgBuffer.mk 80 80 PixMode.RGBA
              (fun _ _ => (10, 20, 30, 0))).px i j).2.2.2 = 0 →
          (prepareForSave (ImgBuffer.mk 80 80 PixMode.RGBA (fun _ _ => (10, 20, 30, 0)))
            "jpg").px i j = (255, 255, 255, 255))) :=
  ⟨rfl, by decide,
    save_flattens_rgba (ImgBuffer.mk 80 80 PixMode.RGBA (fun _ _ => (10, 20, 30, 0)))
      "jpg" rfl (by decide)⟩

/-- C10: a buffer whose mode is anything other than exactly RGBA (LA, a
palette mode with transparency, etc.) is handed to the encoder unchanged —
no flattening happens even when the output format is in the no-alpha set;
only an exactly-RGBA buffer bound for a no-alpha format is composited over
white. -/
theorem save_skips_non_rgba (img : ImgBuffer) (fmt : String) :
    (img.mode ≠ PixMode.RGBA → prepareForSave img fmt = img) ∧
      (img.mode = PixMode.RGBA → fmt ∈ no_alpha_formats →
        prepareForSave img fmt = flattenOverColor img (255, 255, 255)) := by
  constructor
  · intro hmode
    rw [prepareForSave, if_neg (fun hc => hmode hc.1)]
  · intro hm hf
    rw [prepareForSave, if_pos ⟨hm, hf⟩]

/-- Witness for C10: an 80×80 LA-mode buffer bound for jpg passes through
the save step untouched. -/
theorem save_skips_non_rgba_witness :
    (ImgBuffer.mk 80 80 PixMode.LA (fun _ _ => (7, 7, 7, 0))).mode ≠ PixMode.RGBA ∧
      prepareForSave (ImgBuffer.mk 80 80 PixMode.LA (fun _ _ => (7, 7, 7, 0))) "jpg" =
        ImgBuffer.mk 80 80 PixMode.LA (fun _ _ => (7, 7, 7, 0)) :=
  ⟨by decide,
    (save_skips_non_rgba (ImgBuffer.mk 80 80 PixMode.LA (fun _ _ => (7, 7, 7, 0)))
      "jpg").1 (by decide)⟩
